import Mathlib

/-
Verification development for the knative-eventing fan-out sidecar
(stub bus cluster provisioner, `pkg/sidecar/fanout`,
`pkg/sidecar/multichannelfanout`, `pkg/sidecar/swappable`).

The repository snapshot contains `swapHttpHandlerConfig`
(clusterprovisioner glue) and the fanout handler's test file; the
fanout / multichannelfanout / swappable implementations themselves are
absent, so those components are modelled from the specification, with
concrete HTTP statuses (200 / 500) fixed by the expectations of
`fanout_handler_test.go`.
-/

namespace fanout

/-- Modelled from the spec: the Event envelope (spec §3): an opaque set of
string-keyed metadata headers plus a byte payload, immutable once received.
The concrete `buses.Message` type is absent from the snapshot. -/
structure Message where
  headers : List (String × String)
  payload : String
deriving DecidableEq, Repr

/-- Modelled from the spec: per-subscription result (spec §3 DispatchOutcome),
one of Success, CallableFailed, SinkableFailed, Timeout. -/
inductive DispatchOutcome where
  | Success
  | CallableFailed
  | SinkableFailed
  | Timeout
deriving DecidableEq, Repr

/-- The subscription routing data, as used by `fanout_handler_test.go`:
`duckv1alpha1.ChannelSubscriberSpec` with `CallableDomain` and
`SinkableDomain` string fields, the empty string meaning "not set". -/
structure ChannelSubscriberSpec where
  callableDomain : String
  sinkableDomain : String
deriving DecidableEq, Repr

/-- The per-channel fanout configuration, as constructed in the test file
(`Config{Subscriptions: subs}`): an ordered list of subscriber specs. -/
structure Config where
  subscriptions : List ChannelSubscriberSpec
deriving DecidableEq, Repr

/-- Modelled from the spec: the observable behavior of one outbound network
target (spec §6): the HTTP status it replies with, the latency of the hop,
and (for callable targets) the transformed event it replies with. -/
structure HopBehavior where
  status : Nat
  latency : Nat
  reply : Message → Message

/-- A reply status in the HTTP success range (2xx) advances to the next
stage (spec §6); the test file treats 202 (Accepted) as success and
403/404 as failures. -/
def isSuccessStatus (s : Nat) : Bool := 200 ≤ s && s < 300

/-- The result of dispatching one event to one subscription: the outcome
and the (possibly transformed) event. -/
structure DispatchResult where
  outcome : DispatchOutcome
  event : Message
deriving DecidableEq, Repr

/-- Modelled from the spec: the sinkable stage of a subscription dispatch
(spec §4.1): if `SinkableTarget` is set, deliver the (possibly transformed)
event; a non-success status yields SinkableFailed; exceeding the shared
deadline (counting time already spent in the callable stage) yields Timeout. -/
def sinkStage (net : String → HopBehavior) (msg : Message) (sinkableDomain : String)
    (timeout elapsed : Nat) : DispatchResult :=
  if sinkableDomain = "" then
    { outcome := .Success, event := msg }
  else
    let hop := net sinkableDomain
    if timeout < elapsed + hop.latency then
      { outcome := .Timeout, event := msg }
    else if isSuccessStatus hop.status then
      { outcome := .Success, event := msg }
    else
      { outcome := .SinkableFailed, event := msg }

/-- Modelled from the spec: `SubscriptionDispatcher.Dispatch` (spec §4.1),
absent from the snapshot. If `CallableTarget` is set, deliver the event to
it; a non-success reply yields CallableFailed and aborts (no sinkable
attempt); a successful reply replaces the event with the target's reply;
then the sinkable stage runs. The whole call is bounded by the shared
deadline: exceeding it yields Timeout and does not continue to a later
stage. If neither target is set the outcome is Success with the event
unchanged. -/
def dispatch (net : String → HopBehavior) (msg : Message) (sub : ChannelSubscriberSpec)
    (timeout : Nat) : DispatchResult :=
  if sub.callableDomain = "" then
    sinkStage net msg sub.sinkableDomain timeout 0
  else
    let hop := net sub.callableDomain
    if timeout < hop.latency then
      { outcome := .Timeout, event := msg }
    else if isSuccessStatus hop.status then
      sinkStage net (hop.reply msg) sub.sinkableDomain timeout hop.latency
    else
      { outcome := .CallableFailed, event := msg }

/-- Modelled from the spec: `fanoutHandler.ServeHTTP` (spec §4.2), absent
from the snapshot; statuses 200 / 500 are fixed by the expectations of
`fanout_handler_test.go`. Returns the boundary status together with the
list of dispatch outcomes actually produced (empty when no subscription
dispatch is attempted). `receiverRejects` models the external
MessageReceiver collaborator reporting rejection; `trackedPresent` models
whether the tracked event could subsequently be retrieved. -/
def handleWithDispatches (net : String → HopBehavior) (receiverRejects trackedPresent : Bool)
    (msg : Message) (config : Config) (timeout : Nat) : Nat × List DispatchOutcome :=
  if receiverRejects then
    (500, [])
  else if !trackedPresent then
    (500, [])
  else
    let outcomes := config.subscriptions.map (fun s => (dispatch net msg s timeout).outcome)
    if outcomes.all (fun o => o == .Success) then (200, outcomes) else (500, outcomes)

/-- The boundary status of one fan-out call (spec §4.2 step 6: the boundary
result is binary). -/
def handle (net : String → HopBehavior) (receiverRejects trackedPresent : Bool)
    (msg : Message) (config : Config) (timeout : Nat) : Nat :=
  (handleWithDispatches net receiverRejects trackedPresent msg config timeout).1

end fanout

namespace multichannelfanout

/-- Modelled from the spec: identification of a logical channel (spec §3
ChannelReference: name + namespace composite key). -/
structure ChannelReference where
  nspace : String
  name : String
deriving DecidableEq, Repr

/-- Modelled from the spec: one channel entry of the routing table (spec §3
ChannelConfig): the channel's identity plus its per-channel fanout
configuration. -/
structure ChannelConfig where
  nspace : String
  name : String
  fanoutConfig : fanout.Config
deriving DecidableEq, Repr

/-- Modelled from the spec: the full routing table (spec §3 FanoutConfig):
an ordered sequence of ChannelConfig; this is the unit that gets
hot-swapped. -/
structure Config where
  channelConfigs : List ChannelConfig
deriving DecidableEq, Repr

/-- Two subscription lists match when they hold the same specs regardless of
declaration order (the spec's order-insensitive "subscription set"
comparison, §4.3): equal length and, for every spec occurring in the first,
equal multiplicity in both. -/
def subsMatch (a b : List fanout.ChannelSubscriberSpec) : Bool :=
  a.length == b.length && a.all (fun s => a.count s == b.count s)

/-- Two channel entries match when they name the same channel and their
subscription lists match as multisets. -/
def channelConfigMatch (a b : ChannelConfig) : Bool :=
  a.nspace == b.nspace && a.name == b.name &&
    subsMatch a.fanoutConfig.subscriptions b.fanoutConfig.subscriptions

/-- Order-insensitive comparison of two channel-entry lists: equal length
and, for every entry of the first, the same number of matching entries on
both sides. -/
def channelConfigsMatch (a b : List ChannelConfig) : Bool :=
  a.length == b.length &&
    a.all (fun c => a.countP (channelConfigMatch c) == b.countP (channelConfigMatch c))

/-- Two channel entries are reorderings of one another when they name the
same channel and their subscription lists are permutations of one
another. -/
def ChannelReordered (a b : ChannelConfig) : Prop :=
  a.nspace = b.nspace ∧ a.name = b.name ∧
    a.fanoutConfig.subscriptions.Perm b.fanoutConfig.subscriptions

/-- Two routing tables are reorderings of one another when, after reordering
each channel entry's subscription list, the channel entry lists are
permutations of one another ("channel entries or subscription lists
reordered but set-equal"). -/
def ConfigReordered (c c' : Config) : Prop :=
  ∃ mid : List ChannelConfig,
    List.Forall₂ ChannelReordered c.channelConfigs mid ∧ mid.Perm c'.channelConfigs

/-- Modelled from the spec: the MultiChannelFanoutHandler (spec §4.3),
absent from the snapshot: holds the active FanoutConfig. -/
structure Handler where
  config : Config
deriving DecidableEq, Repr

/-- Modelled from the spec: `ConfigDiff(newConfig)` (spec §4.3): structural,
order-insensitive comparison of the current FanoutConfig against a
candidate; returns the empty string ("no difference") exactly when every
ChannelConfig and its subscription set matches regardless of declaration
order. The caller (`swapHttpHandlerConfig`) tests the result against "". -/
def ConfigDiff (h : Handler) (updated : Config) : String :=
  if channelConfigsMatch h.config.channelConfigs updated.channelConfigs then ""
  else "configs differ"

/-- The composite key of a channel entry. -/
def channelKey (cc : ChannelConfig) : String × String := (cc.nspace, cc.name)

/-- A candidate configuration is invalid when it violates the spec §3
invariant that a FanoutConfig never contains two ChannelConfig entries
with the same ChannelReference. -/
def hasDuplicateChannelKey (conf : Config) : Bool :=
  let keys := conf.channelConfigs.map channelKey
  keys.any (fun k => 1 < keys.count k)

/-- Modelled from the spec: `CopyWithNewConfig(newConfig)` (spec §4.3 and
§7 ConfigInvalid): builds a fresh Handler wired from the candidate
configuration without mutating the receiver; fails when the candidate
cannot build a valid set of per-channel handlers (duplicate channel
keys). -/
def CopyWithNewConfig (_h : Handler) (conf : Config) : Except String Handler :=
  if hasDuplicateChannelKey conf then .error "duplicate channel key"
  else .ok { config := conf }

/-- Modelled from the spec: `Route(request)` (spec §4.3): resolves the
destination channel and looks its entry up by ChannelReference; no match
is a distinct error (`none`). -/
def Route (h : Handler) (ref : ChannelReference) : Option ChannelConfig :=
  h.config.channelConfigs.find? (fun cc => cc.nspace == ref.nspace && cc.name == ref.name)

/-- Modelled from the spec: MultiChannelFanoutHandler request handling:
route to the per-channel fanout handler and delegate; a request whose
channel has no installed configuration is a distinct failure reported
without attempting any dispatch (spec §7 RouteNotFound), surfaced as a
server-error status at the boundary. -/
def Handle (net : String → fanout.HopBehavior) (h : Handler)
    (receiverRejects trackedPresent : Bool) (ref : ChannelReference)
    (msg : fanout.Message) (timeout : Nat) : Nat :=
  match Route h ref with
  | none => 500
  | some cc => fanout.handle net receiverRejects trackedPresent msg cc.fanoutConfig timeout

end multichannelfanout

namespace swappable

/-- Modelled from the spec: the SwappableHandler (spec §4.4), absent from
the snapshot: holds the currently active MultiChannelFanoutHandler behind
a single mutable slot. -/
structure Handler where
  fanoutHandler : multichannelfanout.Handler
deriving DecidableEq, Repr

/-- Modelled from the spec: the lock-protected read of the single current
pointer (spec §4.4 GetConfig), as called by `swapHttpHandlerConfig`. -/
def GetMultiChannelFanoutHandler (h : Handler) : multichannelfanout.Handler :=
  h.fanoutHandler

/-- Modelled from the spec: the lock-protected replace of the pointer
(spec §4.4 SetConfig), as called by `swapHttpHandlerConfig`. -/
def SetMultiChannelFanoutHandler (h : Handler) (newH : multichannelfanout.Handler) : Handler :=
  { h with fanoutHandler := newH }

/-- Modelled from the spec: `swappable.NewEmptyHandler` as used by
`ProvideController`: construction with an empty MultiChannelFanoutHandler. -/
def NewEmptyHandler : Handler :=
  { fanoutHandler := { config := { channelConfigs := [] } } }

/-- From `src/unnamed/part_000`, `swapHttpHandlerConfig`: reads the
currently installed handler, computes `ConfigDiff` against the candidate;
when there is no difference it returns without building or installing
anything; when there is a difference it builds via `CopyWithNewConfig`,
returning the error (with the old handler still installed) when the build
fails, and installing the new handler via `SetMultiChannelFanoutHandler`
when it succeeds. The mutable slot is modelled by returning the resulting
handler state next to the optional error. -/
def swapHttpHandlerConfig (s : Handler) (config : multichannelfanout.Config) :
    Option String × Handler :=
  let mch := GetMultiChannelFanoutHandler s
  if multichannelfanout.ConfigDiff mch config ≠ "" then
    match multichannelfanout.CopyWithNewConfig mch config with
    | .error e => (some e, s)
    | .ok newH => (none, SetMultiChannelFanoutHandler s newH)
  else
    (none, s)

/-- Modelled from the spec: `swappable.Handler.Handle` (spec §4.4): takes a
consistent snapshot of the current handler, then delegates Route + Handle
to it. -/
def ServeHTTP (net : String → fanout.HopBehavior) (h : Handler)
    (receiverRejects trackedPresent : Bool) (ref : multichannelfanout.ChannelReference)
    (msg : fanout.Message) (timeout : Nat) : Nat :=
  multichannelfanout.Handle net (GetMultiChannelFanoutHandler h)
    receiverRejects trackedPresent ref msg timeout

/-- The position of a configuration swap relative to one request's two
steps (read the snapshot; evaluate against it). -/
inductive SwapPoint where
  | before
  | mid
  | after
deriving DecidableEq, Repr

/-- Modelled from the spec: one request racing one `SetConfig` swap. The
request reads the current-handler snapshot once at its start and then
evaluates against that snapshot (spec §4.4); the swap may land before the
snapshot is read, between the snapshot read and the evaluation, or after
the evaluation. Returns the request's boundary status and the final slot
state. -/
def ServeHTTPWithSwapAt (net : String → fanout.HopBehavior) (s : Handler)
    (newH : multichannelfanout.Handler) (p : SwapPoint)
    (receiverRejects trackedPresent : Bool) (ref : multichannelfanout.ChannelReference)
    (msg : fanout.Message) (timeout : Nat) : Nat × Handler :=
  match p with
  | .before =>
    let s1 := SetMultiChannelFanoutHandler s newH
    (ServeHTTP net s1 receiverRejects trackedPresent ref msg timeout, s1)
  | .mid =>
    let snapshot := GetMultiChannelFanoutHandler s
    let s1 := SetMultiChannelFanoutHandler s newH
    (multichannelfanout.Handle net snapshot receiverRejects trackedPresent ref msg timeout, s1)
  | .after =>
    let r := ServeHTTP net s receiverRejects trackedPresent ref msg timeout
    (r, SetMultiChannelFanoutHandler s newH)

end swappable

/-- Example subscriber spec used to instantiate the ConfigDiff theorems. -/
def exSpec1 : fanout.ChannelSubscriberSpec :=
  { callableDomain := "call1", sinkableDomain := "sink1" }

/-- Example subscriber spec used to instantiate the ConfigDiff theorems. -/
def exSpec2 : fanout.ChannelSubscriberSpec :=
  { callableDomain := "call2", sinkableDomain := "sink2" }

/-- Example subscriber spec: `exSpec2` with its sinkable target changed. -/
def exSpec3 : fanout.ChannelSubscriberSpec :=
  { callableDomain := "call2", sinkableDomain := "sink3" }

/-- Example channel entry with two subscriptions. -/
def exChanA : multichannelfanout.ChannelConfig :=
  { nspace := "ns", name := "a", fanoutConfig := { subscriptions := [exSpec1, exSpec2] } }

/-- Example channel entry: `exChanA` with its subscription list reordered. -/
def exChanAreordered : multichannelfanout.ChannelConfig :=
  { nspace := "ns", name := "a", fanoutConfig := { subscriptions := [exSpec2, exSpec1] } }

/-- Example channel entry: `exChanA` with one subscription target changed. -/
def exChanA2 : multichannelfanout.ChannelConfig :=
  { nspace := "ns", name := "a", fanoutConfig := { subscriptions := [exSpec1, exSpec3] } }

/-- Example channel entry with no subscriptions. -/
def exChanB : multichannelfanout.ChannelConfig :=
  { nspace := "ns", name := "b", fanoutConfig := { subscriptions := [] } }

/-- Example routing table. -/
def exCfg : multichannelfanout.Config := { channelConfigs := [exChanA, exChanB] }

/-- Example routing table: `exCfg` with channel entries and subscription
lists reordered but set-equal. -/
def exCfgReordered : multichannelfanout.Config :=
  { channelConfigs := [exChanB, exChanAreordered] }

/-- Example routing table holding just `exChanA`. -/
def exCfgT1 : multichannelfanout.Config := { channelConfigs := [exChanA] }

/-- Example routing table: `exCfgT1` with one subscription target changed. -/
def exCfgT2 : multichannelfanout.Config := { channelConfigs := [exChanA2] }

/-- Helper: once the receiver has accepted the event and the tracked event
is present, the engine dispatches every subscription and folds the
outcomes. -/
theorem fanout.handleWithDispatches_accepted (net : String → fanout.HopBehavior)
    (msg : fanout.Message) (cfg : fanout.Config) (timeout : Nat) :
    fanout.handleWithDispatches net false true msg cfg timeout =
      (if ((cfg.subscriptions.map fun s => (fanout.dispatch net msg s timeout).outcome).all
            fun o => o == DispatchOutcome.Success) = true
        then (200, cfg.subscriptions.map fun s => (fanout.dispatch net msg s timeout).outcome)
        else (500, cfg.subscriptions.map fun s => (fanout.dispatch net msg s timeout).outcome)) :=
  rfl

/-- Helper: the folded Boolean over mapped outcomes agrees with universal
Success of the dispatch outcomes. -/
theorem fanout.all_outcomes_iff (net : String → fanout.HopBehavior)
    (msg : fanout.Message) (cfg : fanout.Config) (timeout : Nat) :
    (((cfg.subscriptions.map fun s => (fanout.dispatch net msg s timeout).outcome).all
        fun o => o == DispatchOutcome.Success) = true) ↔
      ∀ s ∈ cfg.subscriptions, (fanout.dispatch net msg s timeout).outcome = .Success := by
  simp [List.all_eq_true]

/-- Helper: the boundary status is 200 exactly when the receiver accepted,
the tracked event was present, and every subscription's dispatch outcome
is Success. -/
theorem fanout.handle_aggregate_iff (net : String → fanout.HopBehavior)
    (rcv trk : Bool) (msg : fanout.Message) (cfg : fanout.Config) (timeout : Nat) :
    fanout.handle net rcv trk msg cfg timeout = 200 ↔
      (rcv = false ∧ trk = true ∧
        ∀ s ∈ cfg.subscriptions, (fanout.dispatch net msg s timeout).outcome = .Success) := by
  cases rcv <;> cases trk
  · have h : fanout.handle net false false msg cfg timeout = 500 := rfl
    simp [h]
  · unfold fanout.handle
    rw [fanout.handleWithDispatches_accepted,
      ← fanout.all_outcomes_iff net msg cfg timeout]
    split
    · next hC => simp [hC]
    · next hC => simp [hC]
  · have h : fanout.handle net true false msg cfg timeout = 500 := rfl
    simp [h]
  · have h : fanout.handle net true true msg cfg timeout = 500 := rfl
    simp [h]

/-- Helper: the boundary status is always 200 or 500. -/
theorem fanout.handle_200_or_500 (net : String → fanout.HopBehavior)
    (rcv trk : Bool) (msg : fanout.Message) (cfg : fanout.Config) (timeout : Nat) :
    fanout.handle net rcv trk msg cfg timeout = 200 ∨
      fanout.handle net rcv trk msg cfg timeout = 500 := by
  cases rcv <;> cases trk
  · exact Or.inr rfl
  · unfold fanout.handle
    rw [fanout.handleWithDispatches_accepted]
    split
    · exact Or.inl rfl
    · exact Or.inr rfl
  · exact Or.inr rfl
  · exact Or.inr rfl

/-- Helper: a single non-Success dispatch outcome forces the boundary
status to 500. -/
theorem fanout.handle_500_of_failure (net : String → fanout.HopBehavior)
    (msg : fanout.Message) (cfg : fanout.Config) (timeout : Nat)
    (s : fanout.ChannelSubscriberSpec) (hs : s ∈ cfg.subscriptions)
    (h : (fanout.dispatch net msg s timeout).outcome ≠ .Success) :
    fanout.handle net false true msg cfg timeout = 500 := by
  rcases fanout.handle_200_or_500 net false true msg cfg timeout with h200 | h500
  · exact absurd (((fanout.handle_aggregate_iff net false true msg cfg timeout).mp h200).2.2 s hs) h
  · exact h500

/-- Claim C1: for every fan-out call over a channel's subscription list
(receiver accepted, tracked event present), the aggregate result of
`Handle` is success (200) iff every subscription's DispatchOutcome is
Success; any subscription whose outcome is not Success forces the
aggregate to failure (500), regardless of how many other subscriptions
succeeded. -/
theorem C1_fanout_aggregate_success_iff (net : String → fanout.HopBehavior)
    (msg : fanout.Message) (cfg : fanout.Config) (timeout : Nat) :
    (fanout.handle net false true msg cfg timeout = 200 ↔
      ∀ s ∈ cfg.subscriptions, (fanout.dispatch net msg s timeout).outcome = .Success)
    ∧ (∀ s ∈ cfg.subscriptions, (fanout.dispatch net msg s timeout).outcome ≠ .Success →
        fanout.handle net false true msg cfg timeout = 500) := by
  constructor
  · rw [fanout.handle_aggregate_iff]
    simp
  · intro s hs hne
    exact fanout.handle_500_of_failure net msg cfg timeout s hs hne

/-- Witness for C1: two subscriptions, one failing sinkable hop among one
succeeding (empty) subscription, yields aggregate 500. -/
theorem C1_fanout_aggregate_success_iff_witness :
    fanout.handle (fun _ => { status := 403, latency := 0, reply := id }) false true
      { headers := [], payload := "e" }
      { subscriptions := [{ callableDomain := "", sinkableDomain := "" },
                          { callableDomain := "", sinkableDomain := "sink" }] } 100 = 500 :=
  (C1_fanout_aggregate_success_iff (fun _ => { status := 403, latency := 0, reply := id })
      { headers := [], payload := "e" }
      { subscriptions := [{ callableDomain := "", sinkableDomain := "" },
                          { callableDomain := "", sinkableDomain := "sink" }] } 100).2
    { callableDomain := "", sinkableDomain := "sink" } (by decide) (by decide)

/-- Claim C2: if the MessageReceiver collaborator reports rejection, or
the engine cannot subsequently retrieve the tracked event, Handle returns
a server-side failure (500) and no subscription dispatch is attempted
(empty outcome list), regardless of the subscription configuration. -/
theorem C2_receiver_rejection_no_dispatch (net : String → fanout.HopBehavior)
    (rcv trk : Bool) (msg : fanout.Message) (cfg : fanout.Config) (timeout : Nat)
    (h : rcv = true ∨ trk = false) :
    fanout.handleWithDispatches net rcv trk msg cfg timeout = (500, []) := by
  rcases h with h | h
  · subst h
    rfl
  · subst h
    cases rcv
    · rfl
    · rfl

/-- Witness for C2: a rejected event yields (500, no dispatches) even with
a subscription configured to succeed. -/
theorem C2_receiver_rejection_no_dispatch_witness :
    fanout.handleWithDispatches (fun _ => { status := 200, latency := 0, reply := id })
      true true { headers := [], payload := "e" }
      { subscriptions := [{ callableDomain := "", sinkableDomain := "sink" }] } 100 =
      (500, []) :=
  C2_receiver_rejection_no_dispatch (fun _ => { status := 200, latency := 0, reply := id })
    true true { headers := [], payload := "e" }
    { subscriptions := [{ callableDomain := "", sinkableDomain := "sink" }] } 100 (Or.inl rfl)

/-- Claim C3: a subscription whose callable hop succeeds but whose sinkable
hop replies with a non-success status has outcome SinkableFailed, and the
aggregate result of Handle is failure (500), even though the callable hop
itself succeeded. -/
theorem C3_sinkable_failure_after_callable_success (net : String → fanout.HopBehavior)
    (msg : fanout.Message) (cfg : fanout.Config) (timeout : Nat)
    (s : fanout.ChannelSubscriberSpec) (hs : s ∈ cfg.subscriptions)
    (hcal : ¬ s.callableDomain = "")
    (hcalOk : fanout.isSuccessStatus (net s.callableDomain).status = true)
    (hsink : ¬ s.sinkableDomain = "")
    (hsinkBad : fanout.isSuccessStatus (net s.sinkableDomain).status = false)
    (htime : (net s.callableDomain).latency + (net s.sinkableDomain).latency ≤ timeout) :
    (fanout.dispatch net msg s timeout).outcome = .SinkableFailed ∧
      fanout.handle net false true msg cfg timeout = 500 := by
  have hcallat : (net s.callableDomain).latency ≤ timeout :=
    le_trans (Nat.le_add_right _ _) htime
  have hbad : ¬ fanout.isSuccessStatus (net s.sinkableDomain).status = true := by
    simp [hsinkBad]
  have hdisp : (fanout.dispatch net msg s timeout).outcome = .SinkableFailed := by
    simp only [fanout.dispatch, fanout.sinkStage]
    rw [if_neg hcal, if_neg (Nat.not_lt.mpr hcallat), if_pos hcalOk, if_neg hsink,
      if_neg (Nat.not_lt.mpr htime), if_neg hbad]
  refine ⟨hdisp, fanout.handle_500_of_failure net msg cfg timeout s hs ?_⟩
  rw [hdisp]
  decide

/-- Witness for C3: callable replies 200 within budget, sinkable replies
403; the subscription's outcome is SinkableFailed and the aggregate is
500. -/
theorem C3_sinkable_failure_after_callable_success_witness :
    (fanout.dispatch
        (fun d => if d = "call" then { status := 200, latency := 1, reply := id }
                  else { status := 403, latency := 1, reply := id })
        { headers := [], payload := "e" }
        { callableDomain := "call", sinkableDomain := "sink" } 100).outcome =
      .SinkableFailed ∧
    fanout.handle
        (fun d => if d = "call" then { status := 200, latency := 1, reply := id }
                  else { status := 403, latency := 1, reply := id })
        false true { headers := [], payload := "e" }
        { subscriptions := [{ callableDomain := "call", sinkableDomain := "sink" }] } 100 =
      500 :=
  C3_sinkable_failure_after_callable_success
    (fun d => if d = "call" then { status := 200, latency := 1, reply := id }
              else { status := 403, latency := 1, reply := id })
    { headers := [], payload := "e" }
    { subscriptions := [{ callableDomain := "call", sinkableDomain := "sink" }] } 100
    { callableDomain := "call", sinkableDomain := "sink" }
    (by decide) (by decide) (by decide) (by decide) (by decide) (by decide)

/-- Claim C4: when the shared deadline is shorter than the latency of a hop
a subscription reaches, the dispatch outcome is Timeout, independent of
the status that hop would have returned, and Handle returns failure
(500). -/
theorem C4_timeout_forces_failure (net : String → fanout.HopBehavior)
    (msg : fanout.Message) (cfg : fanout.Config) (timeout : Nat)
    (s : fanout.ChannelSubscriberSpec) (hs : s ∈ cfg.subscriptions)
    (h : (¬ s.callableDomain = "" ∧ timeout < (net s.callableDomain).latency) ∨
         (¬ s.sinkableDomain = "" ∧ timeout < (net s.sinkableDomain).latency ∧
           (s.callableDomain = "" ∨
             (fanout.isSuccessStatus (net s.callableDomain).status = true ∧
               (net s.callableDomain).latency ≤ timeout)))) :
    (fanout.dispatch net msg s timeout).outcome = .Timeout ∧
      fanout.handle net false true msg cfg timeout = 500 := by
  have hdisp : (fanout.dispatch net msg s timeout).outcome = .Timeout := by
    rcases h with ⟨hc, hlat⟩ | ⟨hsink, hslat, hcall⟩
    · simp only [fanout.dispatch]
      rw [if_neg hc, if_pos hlat]
    · by_cases hce : s.callableDomain = ""
      · simp only [fanout.dispatch, fanout.sinkStage]
        rw [if_pos hce, if_neg hsink,
          if_pos (show timeout < 0 + (net s.sinkableDomain).latency by omega)]
      · rcases hcall with hc' | ⟨hok, hclat⟩
        · exact absurd hc' hce
        · simp only [fanout.dispatch, fanout.sinkStage]
          rw [if_neg hce, if_neg (Nat.not_lt.mpr hclat), if_pos hok, if_neg hsink,
            if_pos (show timeout <
              (net s.callableDomain).latency + (net s.sinkableDomain).latency by omega)]
  refine ⟨hdisp, fanout.handle_500_of_failure net msg cfg timeout s hs ?_⟩
  rw [hdisp]
  decide

/-- Witness for C4: a 1-tick deadline against a callable hop with latency
10 (which would have replied 200) yields Timeout and aggregate 500, as in
the "fanout times out" test case. -/
theorem C4_timeout_forces_failure_witness :
    (fanout.dispatch (fun _ => { status := 200, latency := 10, reply := id })
        { headers := [], payload := "e" }
        { callableDomain := "call", sinkableDomain := "" } 1).outcome = .Timeout ∧
    fanout.handle (fun _ => { status := 200, latency := 10, reply := id })
        false true { headers := [], payload := "e" }
        { subscriptions := [{ callableDomain := "call", sinkableDomain := "" }] } 1 = 500 :=
  C4_timeout_forces_failure (fun _ => { status := 200, latency := 10, reply := id })
    { headers := [], payload := "e" }
    { subscriptions := [{ callableDomain := "call", sinkableDomain := "" }] } 1
    { callableDomain := "call", sinkableDomain := "" }
    (by decide) (Or.inl (by decide))

/-- Claim C7: a configuration with zero subscriptions on the target channel
(receiver accepted, tracked event present) yields immediate success
(200). -/
theorem C7_zero_subscriptions_success (net : String → fanout.HopBehavior)
    (msg : fanout.Message) (cfg : fanout.Config) (timeout : Nat)
    (h : cfg.subscriptions = []) :
    fanout.handle net false true msg cfg timeout = 200 := by
  rw [fanout.handle_aggregate_iff]
  exact ⟨rfl, rfl, by simp [h]⟩

/-- Witness for C7: the empty subscription list yields 200. -/
theorem C7_zero_subscriptions_success_witness :
    fanout.handle (fun _ => { status := 403, latency := 0, reply := id }) false true
      { headers := [], payload := "e" } { subscriptions := [] } 100 = 200 :=
  C7_zero_subscriptions_success (fun _ => { status := 403, latency := 0, reply := id })
    { headers := [], payload := "e" } { subscriptions := [] } 100 rfl

/-- Claim C8: a SubscriptionSpec with both targets empty always dispatches
to Success with the event unchanged, and a fan-out over a configuration
consisting only of such empty subscriptions returns success (200). -/
theorem C8_empty_subscriptions_success (net : String → fanout.HopBehavior)
    (msg : fanout.Message) (cfg : fanout.Config) (timeout : Nat)
    (h : ∀ s ∈ cfg.subscriptions, s.callableDomain = "" ∧ s.sinkableDomain = "") :
    (∀ t : Nat, fanout.dispatch net msg { callableDomain := "", sinkableDomain := "" } t =
      { outcome := .Success, event := msg }) ∧
    fanout.handle net false true msg cfg timeout = 200 := by
  have hemp : ∀ t : Nat,
      fanout.dispatch net msg { callableDomain := "", sinkableDomain := "" } t =
        { outcome := .Success, event := msg } := by
    intro t
    rfl
  refine ⟨hemp, ?_⟩
  rw [fanout.handle_aggregate_iff]
  refine ⟨rfl, rfl, fun s hs => ?_⟩
  obtain ⟨h1, h2⟩ := h s hs
  have hse : s = { callableDomain := "", sinkableDomain := "" } := by
    cases s
    simp_all
  rw [hse, hemp timeout]

/-- Witness for C8: one empty subscription yields Success with the event
unchanged and aggregate 200. -/
theorem C8_empty_subscriptions_success_witness :
    (∀ t : Nat, fanout.dispatch (fun _ => { status := 403, latency := 0, reply := id })
      { headers := [], payload := "e" } { callableDomain := "", sinkableDomain := "" } t =
      { outcome := .Success, event := { headers := [], payload := "e" } }) ∧
    fanout.handle (fun _ => { status := 403, latency := 0, reply := id }) false true
      { headers := [], payload := "e" }
      { subscriptions := [{ callableDomain := "", sinkableDomain := "" }] } 100 = 200 :=
  C8_empty_subscriptions_success (fun _ => { status := 403, latency := 0, reply := id })
    { headers := [], payload := "e" }
    { subscriptions := [{ callableDomain := "", sinkableDomain := "" }] } 100
    (by decide)

/-- Claim C10: the boundary result is encoded as exactly two status codes:
200 for aggregate success and 500 for every failure class; no other status
is returned, and 200 occurs exactly when the receiver accepted, the
tracked event was present, and every dispatch outcome is Success. -/
theorem C10_binary_boundary_status (net : String → fanout.HopBehavior)
    (rcv trk : Bool) (msg : fanout.Message) (cfg : fanout.Config) (timeout : Nat) :
    (fanout.handle net rcv trk msg cfg timeout = 200 ∨
      fanout.handle net rcv trk msg cfg timeout = 500) ∧
    (fanout.handle net rcv trk msg cfg timeout = 200 ↔
      (rcv = false ∧ trk = true ∧
        ∀ s ∈ cfg.subscriptions, (fanout.dispatch net msg s timeout).outcome = .Success)) :=
  ⟨fanout.handle_200_or_500 net rcv trk msg cfg timeout,
   fanout.handle_aggregate_iff net rcv trk msg cfg timeout⟩

/-- Claim C5: install(newConfig) -- as implemented by
`swapHttpHandlerConfig` -- leaves the active handler unchanged and builds
nothing when `ConfigDiff` reports no difference; builds via
`CopyWithNewConfig` and installs via the setter when it reports a
difference; and when `CopyWithNewConfig` fails, returns that error with
the previously active handler still in force (no partial adoption). -/
theorem C5_install_diff_copy_swap (s : swappable.Handler) (conf : multichannelfanout.Config) :
    (multichannelfanout.ConfigDiff (swappable.GetMultiChannelFanoutHandler s) conf = "" →
      swappable.swapHttpHandlerConfig s conf = (none, s)) ∧
    (∀ newH, ¬ multichannelfanout.ConfigDiff (swappable.GetMultiChannelFanoutHandler s) conf = "" →
      multichannelfanout.CopyWithNewConfig (swappable.GetMultiChannelFanoutHandler s) conf =
        .ok newH →
      swappable.swapHttpHandlerConfig s conf =
        (none, swappable.SetMultiChannelFanoutHandler s newH)) ∧
    (∀ e, ¬ multichannelfanout.ConfigDiff (swappable.GetMultiChannelFanoutHandler s) conf = "" →
      multichannelfanout.CopyWithNewConfig (swappable.GetMultiChannelFanoutHandler s) conf =
        .error e →
      swappable.swapHttpHandlerConfig s conf = (some e, s)) := by
  refine ⟨?_, ?_, ?_⟩
  · intro hd
    simp only [swappable.swapHttpHandlerConfig]
    rw [if_neg (fun hc => hc hd)]
  · intro newH hne hok
    simp only [swappable.swapHttpHandlerConfig]
    rw [if_pos hne, hok]
  · intro e hne herr
    simp only [swappable.swapHttpHandlerConfig]
    rw [if_pos hne, herr]

/-- Witness for C5: installing a candidate with a duplicate channel key
over the empty handler hits the ConfigInvalid branch: the error is
returned and the previously active (empty) handler remains in force. -/
theorem C5_install_diff_copy_swap_witness :
    swappable.swapHttpHandlerConfig swappable.NewEmptyHandler
      { channelConfigs :=
          [{ nspace := "ns", name := "ch", fanoutConfig := { subscriptions := [] } },
           { nspace := "ns", name := "ch", fanoutConfig := { subscriptions := [] } }] } =
      (some "duplicate channel key", swappable.NewEmptyHandler) :=
  (C5_install_diff_copy_swap swappable.NewEmptyHandler
      { channelConfigs :=
          [{ nspace := "ns", name := "ch", fanoutConfig := { subscriptions := [] } },
           { nspace := "ns", name := "ch", fanoutConfig := { subscriptions := [] } }] }).2.2
    "duplicate channel key" (by decide) rfl

/-- Claim C9: a request reads the current-handler snapshot exactly once at
its start; a swap landing before the snapshot makes the request observe the
fully-new configuration, a swap landing mid-request (between snapshot and
evaluation) leaves the request evaluated against the fully-old
configuration, and in every case the request observes either the fully-old
or the fully-new configuration, never a mixture. -/
theorem C9_snapshot_consistency (net : String → fanout.HopBehavior) (s : swappable.Handler)
    (newH : multichannelfanout.Handler) (p : swappable.SwapPoint)
    (rcv trk : Bool) (ref : multichannelfanout.ChannelReference)
    (msg : fanout.Message) (timeout : Nat) :
    ((swappable.ServeHTTPWithSwapAt net s newH p rcv trk ref msg timeout).1 =
        multichannelfanout.Handle net (swappable.GetMultiChannelFanoutHandler s)
          rcv trk ref msg timeout ∨
      (swappable.ServeHTTPWithSwapAt net s newH p rcv trk ref msg timeout).1 =
        multichannelfanout.Handle net newH rcv trk ref msg timeout) ∧
    (swappable.ServeHTTPWithSwapAt net s newH .mid rcv trk ref msg timeout).1 =
      multichannelfanout.Handle net (swappable.GetMultiChannelFanoutHandler s)
        rcv trk ref msg timeout := by
  refine ⟨?_, rfl⟩
  cases p
  · exact Or.inr rfl
  · exact Or.inl rfl
  · exact Or.inl rfl

/-- Helper: subscription-list matching is reflexive. -/
theorem multichannelfanout.subsMatch_refl (x : List fanout.ChannelSubscriberSpec) :
    multichannelfanout.subsMatch x x = true := by
  simp [multichannelfanout.subsMatch, List.all_eq_true]

/-- Helper: channel-entry matching is reflexive. -/
theorem multichannelfanout.channelConfigMatch_refl (a : multichannelfanout.ChannelConfig) :
    multichannelfanout.channelConfigMatch a a = true := by
  simp [multichannelfanout.channelConfigMatch, multichannelfanout.subsMatch_refl]

/-- Helper: subscription-list matching is invariant under permuting the
candidate list. -/
theorem multichannelfanout.subsMatch_perm_right (a : List fanout.ChannelSubscriberSpec)
    {b b' : List fanout.ChannelSubscriberSpec} (hp : b.Perm b') :
    multichannelfanout.subsMatch a b = multichannelfanout.subsMatch a b' := by
  unfold multichannelfanout.subsMatch
  rw [hp.length_eq]
  have hf : (fun s => a.count s == b.count s) = (fun s => a.count s == b'.count s) :=
    funext fun s => by rw [hp.count_eq]
  rw [hf]

/-- Helper: channel-entry matching is invariant under reordering the
candidate entry's subscription list. -/
theorem multichannelfanout.channelConfigMatch_congr_right
    (x : multichannelfanout.ChannelConfig) {b b' : multichannelfanout.ChannelConfig}
    (h : multichannelfanout.ChannelReordered b b') :
    multichannelfanout.channelConfigMatch x b = multichannelfanout.channelConfigMatch x b' := by
  obtain ⟨hns, hname, hperm⟩ := h
  unfold multichannelfanout.channelConfigMatch
  rw [hns, hname, multichannelfanout.subsMatch_perm_right x.fanoutConfig.subscriptions hperm]

/-- Helper: countP agrees along lists related pointwise by a relation the
predicate respects. -/
theorem countP_eq_of_forall₂ {α : Type} {R : α → α → Prop} {l m : List α}
    (h : List.Forall₂ R l m) (p : α → Bool) (hp : ∀ a b, R a b → p a = p b) :
    l.countP p = m.countP p := by
  induction h with
  | nil => rfl
  | cons hr _ ih => rw [List.countP_cons, List.countP_cons, hp _ _ hr, ih]

/-- Helper: the order-insensitive comparison accepts any reordering of a
routing table. -/
theorem multichannelfanout.channelConfigsMatch_of_reordered
    {c c' : multichannelfanout.Config} (h : multichannelfanout.ConfigReordered c c') :
    multichannelfanout.channelConfigsMatch c.channelConfigs c'.channelConfigs = true := by
  obtain ⟨mid, hf, hp⟩ := h
  have hlen : c.channelConfigs.length = c'.channelConfigs.length := by
    rw [hf.length_eq, hp.length_eq]
  unfold multichannelfanout.channelConfigsMatch
  rw [Bool.and_eq_true]
  refine ⟨beq_iff_eq.mpr hlen, List.all_eq_true.mpr ?_⟩
  intro x _
  have h1 : c.channelConfigs.countP (multichannelfanout.channelConfigMatch x) =
      mid.countP (multichannelfanout.channelConfigMatch x) :=
    countP_eq_of_forall₂ hf _
      (fun a b hr => multichannelfanout.channelConfigMatch_congr_right x hr)
  have h2 : mid.countP (multichannelfanout.channelConfigMatch x) =
      c'.channelConfigs.countP (multichannelfanout.channelConfigMatch x) :=
    hp.countP_eq _
  exact beq_iff_eq.mpr (h1.trans h2)

/-- Helper: subscription-list matching fails when some spec of the first
list has a different multiplicity in the second. -/
theorem multichannelfanout.subsMatch_eq_false {x y : List fanout.ChannelSubscriberSpec}
    (s : fanout.ChannelSubscriberSpec) (hs : s ∈ x) (h : x.count s ≠ y.count s) :
    multichannelfanout.subsMatch x y = false := by
  unfold multichannelfanout.subsMatch
  have hall : x.all (fun t => x.count t == y.count t) = false := by
    rw [← Bool.not_eq_true]
    intro hall
    exact h (beq_iff_eq.mp (List.all_eq_true.mp hall s hs))
  rw [hall, Bool.and_false]

/-- Helper: channel-entry matching fails between same-named entries whose
subscription multisets differ. -/
theorem multichannelfanout.channelConfigMatch_eq_false
    {a b : multichannelfanout.ChannelConfig}
    (s : fanout.ChannelSubscriberSpec) (hs : s ∈ a.fanoutConfig.subscriptions)
    (h : a.fanoutConfig.subscriptions.count s ≠ b.fanoutConfig.subscriptions.count s) :
    multichannelfanout.channelConfigMatch a b = false := by
  unfold multichannelfanout.channelConfigMatch
  rw [multichannelfanout.subsMatch_eq_false s hs h, Bool.and_false]

/-- Helper: the order-insensitive comparison rejects two tables equal
everywhere except one channel entry whose subscription multiset changed. -/
theorem multichannelfanout.channelConfigsMatch_eq_false_of_target_change
    {l₁ l₂ : List multichannelfanout.ChannelConfig}
    {a b : multichannelfanout.ChannelConfig}
    (s : fanout.ChannelSubscriberSpec) (hs : s ∈ a.fanoutConfig.subscriptions)
    (h : a.fanoutConfig.subscriptions.count s ≠ b.fanoutConfig.subscriptions.count s) :
    multichannelfanout.channelConfigsMatch (l₁ ++ a :: l₂) (l₁ ++ b :: l₂) = false := by
  have hcount : (l₁ ++ a :: l₂).countP (multichannelfanout.channelConfigMatch a) ≠
      (l₁ ++ b :: l₂).countP (multichannelfanout.channelConfigMatch a) := by
    rw [List.countP_append, List.countP_append, List.countP_cons, List.countP_cons,
      multichannelfanout.channelConfigMatch_refl a,
      multichannelfanout.channelConfigMatch_eq_false s hs h]
    simp
  have hmem : a ∈ l₁ ++ a :: l₂ := List.mem_append_right l₁ (List.mem_cons_self a l₂)
  unfold multichannelfanout.channelConfigsMatch
  have hall : (l₁ ++ a :: l₂).all
      (fun c => (l₁ ++ a :: l₂).countP (multichannelfanout.channelConfigMatch c) ==
        (l₁ ++ b :: l₂).countP (multichannelfanout.channelConfigMatch c)) = false := by
    rw [← Bool.not_eq_true]
    intro hall
    exact hcount (beq_iff_eq.mp (List.all_eq_true.mp hall a hmem))
  rw [hall, Bool.and_false]

/-- Helper: the order-insensitive comparison is reflexive. -/
theorem multichannelfanout.channelConfigsMatch_refl
    (l : List multichannelfanout.ChannelConfig) :
    multichannelfanout.channelConfigsMatch l l = true := by
  simp [multichannelfanout.channelConfigsMatch, List.all_eq_true]

/-- Claim C6: ConfigDiff between a routing table and itself reports no
difference; it still reports no difference when channel entries or
subscription lists are reordered but set-equal; and it reports a
difference between two tables equal except that one channel entry differs
in at least one subscription target (one spec's multiplicity changed). -/
theorem C6_configDiff_structural (c c' d d' : multichannelfanout.Config) :
    multichannelfanout.ConfigDiff { config := c } c = "" ∧
    (multichannelfanout.ConfigReordered c c' →
      multichannelfanout.ConfigDiff { config := c } c' = "") ∧
    (∀ l₁ l₂ a b s,
      d.channelConfigs = l₁ ++ a :: l₂ → d'.channelConfigs = l₁ ++ b :: l₂ →
      s ∈ a.fanoutConfig.subscriptions →
      a.fanoutConfig.subscriptions.count s ≠ b.fanoutConfig.subscriptions.count s →
      multichannelfanout.ConfigDiff { config := d } d' ≠ "") := by
  refine ⟨?_, ?_, ?_⟩
  · show (if multichannelfanout.channelConfigsMatch c.channelConfigs c.channelConfigs = true
      then "" else "configs differ") = ""
    rw [if_pos (multichannelfanout.channelConfigsMatch_refl c.channelConfigs)]
  · intro h
    show (if multichannelfanout.channelConfigsMatch c.channelConfigs c'.channelConfigs = true
      then "" else "configs differ") = ""
    rw [if_pos (multichannelfanout.channelConfigsMatch_of_reordered h)]
  · intro l₁ l₂ a b s hd hd' hs hcnt
    have hfalse : multichannelfanout.channelConfigsMatch
        d.channelConfigs d'.channelConfigs = false := by
      rw [hd, hd']
      exact multichannelfanout.channelConfigsMatch_eq_false_of_target_change s hs hcnt
    have hne : ¬ multichannelfanout.channelConfigsMatch
        d.channelConfigs d'.channelConfigs = true := by
      simp [hfalse]
    show (if multichannelfanout.channelConfigsMatch d.channelConfigs d'.channelConfigs = true
      then "" else "configs differ") ≠ ""
    rw [if_neg hne]
    decide

/-- Witness for C6: the example table diffs as empty against itself and
against its reordering, and as non-empty against the table with one
changed subscription target. -/
theorem C6_configDiff_structural_witness :
    multichannelfanout.ConfigDiff { config := exCfg } exCfg = "" ∧
    multichannelfanout.ConfigDiff { config := exCfg } exCfgReordered = "" ∧
    multichannelfanout.ConfigDiff { config := exCfgT1 } exCfgT2 ≠ "" := by
  refine ⟨(C6_configDiff_structural exCfg exCfg exCfgT1 exCfgT2).1, ?_, ?_⟩
  · refine (C6_configDiff_structural exCfg exCfgReordered exCfgT1 exCfgT2).2.1
      ⟨[exChanAreordered, exChanB], ?_, ?_⟩
    · exact List.Forall₂.cons ⟨rfl, rfl, List.Perm.swap exSpec2 exSpec1 []⟩
        (List.Forall₂.cons ⟨rfl, rfl, List.Perm.refl _⟩ List.Forall₂.nil)
    · exact List.Perm.swap exChanB exChanAreordered []
  · exact (C6_configDiff_structural exCfg exCfgReordered exCfgT1 exCfgT2).2.2
      [] [] exChanA exChanA2 exSpec2 rfl rfl (by decide) (by decide)
